import Mathlib

/-!
Verification of the gsheet sync utility (`gsheet_read.py`).

The script polls a spreadsheet, compares each sheet's rows to a locally
cached snapshot, and persists both the full snapshot and a numbered
record of the newly seen rows.  We embed the storage-facing core —
`read_previous_data`, `write_new_data`, `save_changes`, `process_sheet`
and the per-sheet loop of `main` — shallowly:

* a `Row` is a list of cell strings;
* the output directory is an association list from file name to the rows
  stored in that file (JSON serialisation round-trips rows exactly, so we
  store `List Row` directly);
* the remote source is a parameter `fetch : String → List Row`;
* `process_sheet` additionally returns a trace of the storage operations
  it performed, so that "no read / no write happened" claims are statable.
-/

/-- A row: an ordered sequence of cell values. -/
abbrev Row := List String

/-- The output directory: association list from file name to stored rows. -/
abbrev FS := List (String × List Row)

/-- Contents of a file in the output directory, if present. -/
def fsRead : FS → String → Option (List Row)
  | [], _ => none
  | (k, v) :: rest, key => if key = k then some v else fsRead rest key

/-- Create or overwrite a file (file names are unique on a real filesystem,
so writing replaces any entry with the same name). -/
def fsWrite (fs : FS) (k : String) (v : List Row) : FS :=
  (k, v) :: fs.filter (fun p => p.1 != k)

/-- Snapshot file name: `f"{sheet_name}_latest.json"`. -/
def latestName (sheet : String) : String := sheet ++ "_latest.json"

/-- Change-record file name: `f"changes_{sheet_name}_{n}.json"`. -/
def changesFileName (sheet : String) (n : Nat) : String :=
  "changes_" ++ sheet ++ "_" ++ toString n ++ ".json"

/-- `read_previous_data`: the stored snapshot, or `[]` when the file is absent. -/
def read_previous_data (fs : FS) (sheet : String) : List Row :=
  match fsRead fs (latestName sheet) with
  | some d => d
  | none => []

/-- `write_new_data`: overwrite the snapshot file with `data`. -/
def write_new_data (fs : FS) (sheet : String) (data : List Row) : FS :=
  fsWrite fs (latestName sheet) data

/-- Python's `f.startswith(pre)`, on the character sequences of the strings. -/
def strStarts (pre f : String) : Bool := pre.data.isPrefixOf f.data

/-- The count taken in `save_changes`:
`len([f for f in os.listdir(OUTPUT_DIR) if f.startswith(f"changes_{sheet_name}_")])`. -/
def changesCount (fs : FS) (sheet : String) : Nat :=
  ((fs.map Prod.fst).filter (fun f => strStarts ("changes_" ++ sheet ++ "_") f)).length

/-- `save_changes`: write the changes under the next sequence number and
report the file written. -/
def save_changes (fs : FS) (sheet : String) (changes : List Row) : FS × String :=
  let file := changesFileName sheet (changesCount fs sheet + 1)
  (fsWrite fs file changes, file)

/-- The comparison of `process_sheet`:
`new_data = [row for row in current_data if row not in previous_data]`. -/
def newData (current previous : List Row) : List Row :=
  current.filter (fun row => !(previous.contains row))

/-- A storage operation performed by `process_sheet`, for effect claims. -/
inductive Op where
  | readPrev : String → Op
  | writeSnapshot : String → List Row → Op
  | writeChanges : String → List Row → Op
deriving DecidableEq

/-- `process_sheet`: fetch, compare against the stored snapshot, and when new
rows exist write the snapshot and a change record.  Returns the resulting
directory together with the trace of storage operations performed. -/
def process_sheet (fetch : String → List Row) (fs : FS) (sheet : String) :
    FS × List Op :=
  let current := fetch sheet
  if current = [] then (fs, [])
  else
    let previous := read_previous_data fs sheet
    let nd := newData current previous
    if nd = [] then (fs, [Op.readPrev sheet])
    else
      let fs1 := write_new_data fs sheet current
      let res := save_changes fs1 sheet nd
      (res.1, [Op.readPrev sheet, Op.writeSnapshot sheet current,
               Op.writeChanges res.2 nd])

/-- The loop of `main`: process each sheet in order, threading the directory
state, and collect each sheet's operation trace. -/
def runTables (fetch : String → List Row) : FS → List String → FS × List (String × List Op)
  | fs, [] => (fs, [])
  | fs, s :: rest =>
    let r1 := process_sheet fetch fs s
    let r2 := runTables fetch r1.1 rest
    (r2.1, (s, r1.2) :: r2.2)

/-! ### Storage lemmas -/

theorem fsRead_filter_ne (fs : FS) (k key : String) (h : key ≠ k) :
    fsRead (fs.filter (fun p => p.1 != k)) key = fsRead fs key := by
  induction fs with
  | nil => rfl
  | cons p rest ih =>
    obtain ⟨a, v⟩ := p
    by_cases hak : a = k
    · subst hak
      rw [List.filter_cons_of_neg (by simp)]
      rw [ih]
      simp [fsRead, h]
    · rw [List.filter_cons_of_pos (by simp [hak])]
      by_cases hka : key = a
      · simp [fsRead, hka]
      · simp [fsRead, hka, ih]

theorem fsRead_fsWrite_self (fs : FS) (k : String) (v : List Row) :
    fsRead (fsWrite fs k v) k = some v := by
  simp [fsWrite, fsRead]

theorem fsRead_fsWrite_ne (fs : FS) (k key : String) (v : List Row) (h : key ≠ k) :
    fsRead (fsWrite fs k v) key = fsRead fs key := by
  unfold fsWrite
  simp only [fsRead, if_neg h]
  exact fsRead_filter_ne fs k key h

theorem changesFileName_ne_latestName (sheet : String) (n : Nat) :
    changesFileName sheet n ≠ latestName sheet := by
  intro h
  have hl := congrArg String.length h
  simp only [changesFileName, latestName, String.length_append] at hl
  have h1 : ("changes_" : String).length = 8 := rfl
  have h2 : ("_" : String).length = 1 := rfl
  have h3 : (".json" : String).length = 5 := rfl
  have h4 : ("_latest.json" : String).length = 12 := rfl
  rw [h1, h2, h3, h4] at hl
  omega

/-! ### Lemmas about the row comparison -/

theorem mem_newData {current previous : List Row} {r : Row} :
    r ∈ newData current previous ↔ r ∈ current ∧ r ∉ previous := by
  simp [newData]

theorem count_newData (current previous : List Row) (r : Row) :
    (newData current previous).count r =
      if r ∈ previous then 0 else current.count r := by
  by_cases h : r ∈ previous
  · rw [if_pos h, List.count_eq_zero]
    intro hmem
    exact (mem_newData.mp hmem).2 h
  · rw [if_neg h]
    exact List.count_filter (by simp [h])

theorem newData_nil (current : List Row) : newData current [] = current := by
  rw [newData, List.filter_eq_self]
  intro a _
  simp

theorem newData_eq_nil {current previous : List Row}
    (h : ∀ r ∈ current, r ∈ previous) : newData current previous = [] := by
  rw [newData, List.filter_eq_nil_iff]
  intro a ha
  simp [h a ha]

/-! ### Branch lemmas for process_sheet -/

theorem process_sheet_fetch_nil {fetch : String → List Row} {fs : FS} {sheet : String}
    (h : fetch sheet = []) : process_sheet fetch fs sheet = (fs, []) := by
  simp [process_sheet, h]

theorem process_sheet_no_new {fetch : String → List Row} {fs : FS} {sheet : String}
    (hcur : fetch sheet ≠ [])
    (hnd : newData (fetch sheet) (read_previous_data fs sheet) = []) :
    process_sheet fetch fs sheet = (fs, [Op.readPrev sheet]) := by
  simp [process_sheet, hcur, hnd]

theorem process_sheet_write {fetch : String → List Row} {fs : FS} {sheet : String}
    (hnd : newData (fetch sheet) (read_previous_data fs sheet) ≠ []) :
    process_sheet fetch fs sheet =
      ((save_changes (write_new_data fs sheet (fetch sheet)) sheet
          (newData (fetch sheet) (read_previous_data fs sheet))).1,
       [Op.readPrev sheet, Op.writeSnapshot sheet (fetch sheet),
        Op.writeChanges
          (save_changes (write_new_data fs sheet (fetch sheet)) sheet
            (newData (fetch sheet) (read_previous_data fs sheet))).2
          (newData (fetch sheet) (read_previous_data fs sheet))]) := by
  have hcur : fetch sheet ≠ [] := by
    intro h
    exact hnd (by rw [h]; rfl)
  simp [process_sheet, hcur, hnd]

theorem save_changes_fst (fs : FS) (sheet : String) (changes : List Row) :
    (save_changes fs sheet changes).1 =
      fsWrite fs (changesFileName sheet (changesCount fs sheet + 1)) changes := rfl

theorem save_changes_snd (fs : FS) (sheet : String) (changes : List Row) :
    (save_changes fs sheet changes).2 =
      changesFileName sheet (changesCount fs sheet + 1) := rfl

theorem fsRead_save_changes_latest (fs : FS) (sheet : String) (nd : List Row) :
    fsRead (save_changes fs sheet nd).1 (latestName sheet) =
      fsRead fs (latestName sheet) := by
  rw [save_changes_fst]
  exact fsRead_fsWrite_ne _ _ _ _ (changesFileName_ne_latestName sheet _).symm

theorem runTables_map_fst (fetch : String → List Row) (fs : FS) (sheets : List String) :
    ((runTables fetch fs sheets).2).map Prod.fst = sheets := by
  induction sheets generalizing fs with
  | nil => rfl
  | cons s rest ih => simp [runTables, ih]

/-! ### Claims -/

/-- C1: `process_sheet` computes `new_data` (`newData` here) as the
sub-sequence of the fetched rows, in original order, of exactly those rows
that do not occur anywhere in the previous snapshot under full-row
equality; occurrence counts are preserved for absent rows and are zero for
present ones, so a row that merely changed position is never reported. -/
theorem C1_newRows_value_set_diff (current previous : List Row) :
    (newData current previous).Sublist current ∧
    (∀ r : Row, r ∈ newData current previous ↔ r ∈ current ∧ r ∉ previous) ∧
    (∀ r : Row, (newData current previous).count r =
      if r ∈ previous then 0 else current.count r) :=
  ⟨List.filter_sublist current, fun _ => mem_newData,
    fun r => count_newData current previous r⟩

/-- Witness for C1 at the spec's reordering example. -/
theorem C1_newRows_value_set_diff_witness :
    (newData [["b","2"],["a","1"],["c","3"]] [["a","1"],["b","2"]]).count ["c","3"] =
      if (["c","3"] : Row) ∈ [["a","1"],["b","2"]] then 0
      else ([["b","2"],["a","1"],["c","3"]] : List Row).count ["c","3"] :=
  (C1_newRows_value_set_diff [["b","2"],["a","1"],["c","3"]] [["a","1"],["b","2"]]).2.2
    ["c","3"]

/-- C2 (counterexample): in a state where external deletion left a numeric
gap — only `changes_T_2.json` remains, so the count of matching files is
1 — `save_changes` writes `changes_T_2.json` again and thereby overwrites
the existing record, contradicting "never overwrites an existing record". -/
theorem C2_counterexample_overwrite :
    fsRead [("changes_T_2.json", [["old"]])] "changes_T_2.json" = some [["old"]] ∧
    (save_changes [("changes_T_2.json", [["old"]])] "T" [["new"]]).2 =
      "changes_T_2.json" ∧
    fsRead (save_changes [("changes_T_2.json", [["old"]])] "T" [["new"]]).1
      "changes_T_2.json" = some [["new"]] ∧
    ([["new"]] : List Row) ≠ [["old"]] :=
  ⟨by decide, by decide, by decide, by decide⟩

/-- C2 (amended): `save_changes` derives the next sequence number as the
count of stored files carrying the table's changes prefix plus one, stores
the rows under that name, and never deletes or alters any other file; in
particular, whenever no existing file already bears the new name — as in
any state not disturbed by external deletion — no existing record is
overwritten. -/
theorem C2_append_next_number (fs : FS) (sheet : String) (changes : List Row) :
    (save_changes fs sheet changes).2 =
      changesFileName sheet (changesCount fs sheet + 1) ∧
    fsRead (save_changes fs sheet changes).1 (save_changes fs sheet changes).2 =
      some changes ∧
    (∀ k, k ≠ (save_changes fs sheet changes).2 →
      fsRead (save_changes fs sheet changes).1 k = fsRead fs k) ∧
    ((save_changes fs sheet changes).2 ∉ fs.map Prod.fst →
      ∀ k ∈ fs.map Prod.fst,
        fsRead (save_changes fs sheet changes).1 k = fsRead fs k) := by
  refine ⟨rfl, ?_, ?_, ?_⟩
  · rw [save_changes_fst, save_changes_snd]
    exact fsRead_fsWrite_self _ _ _
  · intro k hk
    rw [save_changes_fst]
    exact fsRead_fsWrite_ne _ _ _ _ (by rwa [save_changes_snd] at hk)
  · intro hfresh k hk
    rw [save_changes_fst]
    refine fsRead_fsWrite_ne _ _ _ _ ?_
    intro heq
    rw [heq] at hk
    exact hfresh (by rw [save_changes_snd]; exact hk)

/-- Witness for C2 (amended): appending to a gap-free state leaves the
existing record untouched. -/
theorem C2_append_next_number_witness :
    fsRead (save_changes [("changes_T_1.json", [["a"]])] "T" [["b"]]).1
      "changes_T_1.json" = some [["a"]] :=
  (C2_append_next_number [("changes_T_1.json", [["a"]])] "T" [["b"]]).2.2.2
    (by decide) "changes_T_1.json" (by decide)

/-- C3: with no prior snapshot the snapshot read yields `[]` rather than
failing, every fetched row is new, and the snapshot persisted by the sync
equals the fetched rows. -/
theorem C3_first_sync_all_new (fetch : String → List Row) (fs : FS) (sheet : String)
    (hcur : fetch sheet ≠ []) (hnone : fsRead fs (latestName sheet) = none) :
    read_previous_data fs sheet = [] ∧
    newData (fetch sheet) (read_previous_data fs sheet) = fetch sheet ∧
    fsRead (process_sheet fetch fs sheet).1 (latestName sheet) =
      some (fetch sheet) := by
  have hprev : read_previous_data fs sheet = [] := by
    rw [read_previous_data, hnone]
  have hnd : newData (fetch sheet) (read_previous_data fs sheet) = fetch sheet := by
    rw [hprev, newData_nil]
  refine ⟨hprev, hnd, ?_⟩
  rw [process_sheet_write (by rw [hnd]; exact hcur), fsRead_save_changes_latest,
    write_new_data]
  exact fsRead_fsWrite_self _ _ _

/-- Witness for C3 on a first-ever sync of sheet `S`. -/
theorem C3_first_sync_all_new_witness :
    read_previous_data [] "S" = [] ∧
    newData [["a"]] (read_previous_data [] "S") = [["a"]] ∧
    fsRead (process_sheet (fun _ => [["a"]]) [] "S").1 (latestName "S") =
      some [["a"]] :=
  C3_first_sync_all_new (fun _ => [["a"]]) [] "S" (by decide) (by decide)

/-- C4: when every fetched row already occurs in the stored snapshot, no
new rows are computed and `process_sheet` performs zero storage writes:
the directory is returned unchanged (so the stored snapshot is untouched)
and the only storage operation in the trace is the snapshot read. -/
theorem C4_noop_when_all_rows_known (fetch : String → List Row) (fs : FS)
    (sheet : String) (hcur : fetch sheet ≠ [])
    (hsub : ∀ r ∈ fetch sheet, r ∈ read_previous_data fs sheet) :
    newData (fetch sheet) (read_previous_data fs sheet) = [] ∧
    process_sheet fetch fs sheet = (fs, [Op.readPrev sheet]) := by
  have hnd := newData_eq_nil hsub
  exact ⟨hnd, process_sheet_no_new hcur hnd⟩

/-- Witness for C4: the same rows in a different order produce no writes. -/
theorem C4_noop_when_all_rows_known_witness :
    newData [["a"],["b"]] (read_previous_data [("S_latest.json", [["b"],["a"]])] "S") = [] ∧
    process_sheet (fun _ => [["a"],["b"]]) [("S_latest.json", [["b"],["a"]])] "S" =
      ([("S_latest.json", [["b"],["a"]])], [Op.readPrev "S"]) :=
  C4_noop_when_all_rows_known (fun _ => [["a"],["b"]])
    [("S_latest.json", [["b"],["a"]])] "S" (by decide) (by decide)

/-- C5: after a sync whose comparison finds new rows, the stored snapshot
equals the fetched rows exactly — a full replacement, not a merge. -/
theorem C5_snapshot_full_replacement (fetch : String → List Row) (fs : FS)
    (sheet : String)
    (hnd : newData (fetch sheet) (read_previous_data fs sheet) ≠ []) :
    fsRead (process_sheet fetch fs sheet).1 (latestName sheet) =
      some (fetch sheet) := by
  rw [process_sheet_write hnd, fsRead_save_changes_latest, write_new_data]
  exact fsRead_fsWrite_self _ _ _

/-- Witness for C5: the prior snapshot row `["b"]` is replaced, not merged. -/
theorem C5_snapshot_full_replacement_witness :
    fsRead (process_sheet (fun _ => [["a"]]) [("S_latest.json", [["b"]])] "S").1
      (latestName "S") = some [["a"]] :=
  C5_snapshot_full_replacement (fun _ => [["a"]]) [("S_latest.json", [["b"]])] "S"
    (by decide)

/-- C6: in a cycle that writes artifacts, the change record written holds
the new rows, the snapshot written in the same cycle holds the fetched
rows, and every row of the change record appears in that snapshot. -/
theorem C6_changes_subset_snapshot (fetch : String → List Row) (fs : FS)
    (sheet : String)
    (hnd : newData (fetch sheet) (read_previous_data fs sheet) ≠ []) :
    fsRead (process_sheet fetch fs sheet).1
        ((save_changes (write_new_data fs sheet (fetch sheet)) sheet
          (newData (fetch sheet) (read_previous_data fs sheet))).2) =
      some (newData (fetch sheet) (read_previous_data fs sheet)) ∧
    fsRead (process_sheet fetch fs sheet).1 (latestName sheet) =
      some (fetch sheet) ∧
    ∀ r ∈ newData (fetch sheet) (read_previous_data fs sheet), r ∈ fetch sheet := by
  refine ⟨?_, ?_, fun r hr => (mem_newData.mp hr).1⟩
  · rw [process_sheet_write hnd, save_changes_fst, save_changes_snd]
    exact fsRead_fsWrite_self _ _ _
  · rw [process_sheet_write hnd, fsRead_save_changes_latest, write_new_data]
    exact fsRead_fsWrite_self _ _ _

/-- Witness for C6 on a first sync writing both artifacts. -/
theorem C6_changes_subset_snapshot_witness :
    fsRead (process_sheet (fun _ => [["a"]]) [] "S").1
        ((save_changes (write_new_data [] "S" [["a"]]) "S"
          (newData [["a"]] (read_previous_data [] "S"))).2) =
      some (newData [["a"]] (read_previous_data [] "S")) ∧
    fsRead (process_sheet (fun _ => [["a"]]) [] "S").1 (latestName "S") =
      some [["a"]] ∧
    ∀ r ∈ newData [["a"]] (read_previous_data [] "S"), r ∈ [["a"]] :=
  C6_changes_subset_snapshot (fun _ => [["a"]]) [] "S" (by decide)

/-- C7: duplicate fetched rows are tested independently: every occurrence
of a row absent from the previous snapshot is kept, so such rows keep
their occurrence count, and `[["x"],["x"]]` against an empty snapshot
yields both occurrences. -/
theorem C7_duplicate_occurrences (current previous : List Row) :
    (∀ r : Row, r ∉ previous →
      (newData current previous).count r = current.count r) ∧
    newData [["x"], ["x"]] [] = [["x"], ["x"]] := by
  refine ⟨fun r hr => ?_, newData_nil _⟩
  rw [count_newData, if_neg hr]

/-- Witness for C7 at the spec's duplicate example. -/
theorem C7_duplicate_occurrences_witness :
    (newData [["x"],["x"]] []).count ["x"] =
      ([["x"],["x"]] : List Row).count ["x"] :=
  (C7_duplicate_occurrences [["x"],["x"]] []).1 ["x"] (by decide)

/-- C8: an empty fetch ends the table's processing with no side effects:
the directory is unchanged and the operation trace is empty — no snapshot
read, no snapshot write, no change record. -/
theorem C8_empty_fetch_no_side_effects (fetch : String → List Row) (fs : FS)
    (sheet : String) (h : fetch sheet = []) :
    process_sheet fetch fs sheet = (fs, []) :=
  process_sheet_fetch_nil h

/-- Witness for C8 with a non-trivial directory left untouched. -/
theorem C8_empty_fetch_no_side_effects_witness :
    process_sheet (fun _ => []) [("S_latest.json", [["a"]])] "S" =
      ([("S_latest.json", [["a"]])], []) :=
  C8_empty_fetch_no_side_effects (fun _ => []) [("S_latest.json", [["a"]])] "S" rfl

/-- C9: the main loop invokes `process_sheet` once per enumerated sheet,
sequentially in enumeration order (the trace lists exactly the sheets, in
order), and a sheet whose fetch is empty leaves the state unchanged while
all remaining sheets are still processed. -/
theorem C9_run_processes_each_table (fetch : String → List Row) (fs : FS)
    (sheets : List String) :
    ((runTables fetch fs sheets).2).map Prod.fst = sheets ∧
    (∀ s rest, fetch s = [] →
      runTables fetch fs (s :: rest) =
        ((runTables fetch fs rest).1, (s, []) :: (runTables fetch fs rest).2)) := by
  refine ⟨runTables_map_fst fetch fs sheets, fun s rest h => ?_⟩
  simp [runTables, process_sheet_fetch_nil h]

/-- Witness for C9: an empty fetch for `A` does not stop `B`. -/
theorem C9_run_processes_each_table_witness :
    runTables (fun _ => []) [] ["A", "B"] =
      ((runTables (fun _ => []) [] ["B"]).1,
       ("A", []) :: (runTables (fun _ => []) [] ["B"]).2) :=
  (C9_run_processes_each_table (fun _ => []) [] ["A", "B"]).2 "A" ["B"] rfl

/-- C10: the sequence-number count matches on the file-name prefix alone,
so any file named `changes_A_B_1.json` — a record of table `A_B` — also
counts toward table `A`; after appending one record for `A_B` into an
empty directory, `A`'s count is already 1 and `A`'s first appended record
is numbered 2, so numbering is not independent per table. -/
theorem C10_prefix_collision_across_tables :
    (∀ (fs : FS) (v : List Row),
      changesCount (("changes_A_B_1.json", v) :: fs) "A" =
        changesCount fs "A" + 1) ∧
    (save_changes [] "A_B" [["r"]]).2 = "changes_A_B_1.json" ∧
    changesCount ((save_changes [] "A_B" [["r"]]).1) "A" = 1 ∧
    (save_changes ((save_changes [] "A_B" [["r"]]).1) "A" [["s"]]).2 =
      "changes_A_2.json" ∧
    ("A" : String) ≠ "A_B" := by
  refine ⟨fun fs v => ?_, by decide, by decide, by decide, by decide⟩
  simp only [changesCount, List.map_cons]
  rw [List.filter_cons_of_pos (by decide)]
  simp
